import Mathlib

/-!
Shallow embedding of the Intelligent Document Querying System scripts
(`scripts/bedrock_utils.py` and `scripts/upload_to_s3.py`).

Python JSON-derived values are modelled by `JVal`; a Python exception that
would escape an expression is modelled by `Except PyErr`.  The standard
library call `json.loads` is external to the repository, so functions that
invoke it take the outcome of that call as an explicit `Option JVal`
argument (`none` models a raised `json.JSONDecodeError`).  External AWS
service calls (`invoke_model`, `retrieve`, `upload_file`) are modelled as
oracle parameters or as the list of actions performed.
-/

/-- Python value obtained from `json.loads` (or `None`). `jnull` models both
JSON `null` and Python `None`; numbers are modelled as integers, which covers
every number appearing in the claims. -/
inductive JVal where
  | jnull : JVal
  | jbool : Bool → JVal
  | jnum : Int → JVal
  | jstr : String → JVal
  | jarr : List JVal → JVal
  | jobj : List (String × JVal) → JVal

/-- Python exception escaping an expression. `attributeError` models calling
a method (such as `.get` or `.strip`) on a value that lacks it; `keyError`
models a failing subscript; `external` models an exception raised by an AWS
client call. -/
inductive PyErr where
  | attributeError : String → PyErr
  | keyError : String → PyErr
  | external : String → PyErr
deriving DecidableEq

/-- Message text used when a `PyErr` is interpolated into an f-string, as in
`f"[ERROR] model invocation failed: \x7be\x7d"`. -/
def pyErrMsg : PyErr → String
  | .attributeError m => m
  | .keyError m => m
  | .external m => m

/-- Python truthiness of a JSON-derived value: `None`, `False`, `0`, `""`,
`[]` and `\x7b\x7d` are falsy, everything else truthy. -/
def truthy : JVal → Bool
  | .jnull => false
  | .jbool b => b
  | .jnum n => n != 0
  | .jstr s => s != ""
  | .jarr xs => !xs.isEmpty
  | .jobj fs => !fs.isEmpty

/-- Python `a or b` on JSON-derived values (returns `a` when truthy, else
`b`). -/
def pyOr (a b : JVal) : JVal :=
  if truthy a then a else b

/-- First value bound to `k` in an association list (Python dicts produced by
`json.loads` have unique keys). -/
def lookupField (fs : List (String × JVal)) (k : String) : Option JVal :=
  match fs with
  | [] => none
  | p :: rest => if p.1 == k then some p.2 else lookupField rest k

/-- Value of key `k` when `v` is a dict that has it; `none` otherwise.
Models the combination `k in v` / `v[k]` used under an `isinstance` guard. -/
def keyVal? (v : JVal) (k : String) : Option JVal :=
  match v with
  | .jobj fs => lookupField fs k
  | _ => none

/-- Python `v.get(k)` when `v` is already known to be a dict: the value, or
`None` when the key is missing. -/
def getD (v : JVal) (k : String) : JVal :=
  (keyVal? v k).getD .jnull

/-- Python `v.get(k)` on an arbitrary value: raises `AttributeError` when `v`
is not a dict. -/
def pyGet (v : JVal) (k : String) : Except PyErr JVal :=
  match v with
  | .jobj _ => .ok (getD v k)
  | _ => .error (.attributeError "get")

/-- Python `v.get(k, default)` on an arbitrary value. -/
def pyGetD (v : JVal) (k : String) (dflt : JVal) : Except PyErr JVal :=
  match v with
  | .jobj fs => .ok ((lookupField fs k).getD dflt)
  | _ => .error (.attributeError "get")

/-- Python `isinstance(v, dict)`. -/
def isDict : JVal → Bool
  | .jobj _ => true
  | _ => false

/-- Python `v.strip()` on a value expected to be a string: strips when it is,
raises `AttributeError` otherwise (as `5 .strip()` would). -/
def isPyWhitespace (c : Char) : Bool :=
  c == ' ' || c == '\t' || c == '\n' || c == '\r' || c == Char.ofNat 11 || c == Char.ofNat 12

/-- Python `s.strip()`: remove leading and trailing whitespace. -/
def pyStrip (s : String) : String :=
  String.mk (((s.toList.dropWhile isPyWhitespace).reverse.dropWhile isPyWhitespace).reverse)

/-- Python `s.lower()` (ASCII case folding suffices for every string the
scripts compare). -/
def pyLower (s : String) : String :=
  String.mk (s.toList.map Char.toLower)

/-- Python slicing `s[:n]` (by characters, as Python slices strings). -/
def pyTake (s : String) (n : Nat) : String :=
  String.mk (s.toList.take n)

/-- Contiguous-sublist test on character lists. -/
def listInfixOf (pat : List Char) : List Char → Bool
  | [] => pat.isEmpty
  | c :: rest => List.isPrefixOf pat (c :: rest) || listInfixOf pat rest

/-- Python `pat in s` substring test. -/
def containsSub (pat s : String) : Bool :=
  listInfixOf pat.toList s.toList

/-- Python `" ".join(parts)`. -/
def joinWithSpace : List String → String
  | [] => ""
  | [x] => x
  | x :: y :: rest => x ++ " " ++ joinWithSpace (y :: rest)

/-- Escaping of one character inside a JSON string literal produced by
`json.dumps` (quote and backslash; escaping of control characters is elided,
no claim touches them). -/
def jsonEscapeChar (c : Char) : String :=
  if c == Char.ofNat 34 then "\\\x22"
  else if c == Char.ofNat 92 then "\\\\"
  else String.singleton c

/-- Escaping of a whole string for `json.dumps`. -/
def jsonEscapeString (s : String) : String :=
  String.join (s.toList.map jsonEscapeChar)

mutual

/-- Python `json.dumps(v)` with its default separators `", "` and `": "`.
The variants called with `indent=2` only differ in whitespace; no claim
depends on that whitespace, only on the compact empty-object case and on
non-emptiness, so a single serializer embeds both call sites. -/
def json_dumps : JVal → String
  | .jnull => "null"
  | .jbool true => "true"
  | .jbool false => "false"
  | .jnum n => toString n
  | .jstr s => "\x22" ++ jsonEscapeString s ++ "\x22"
  | .jarr xs => "[" ++ dumps_list xs ++ "]"
  | .jobj fs => "\x7b" ++ dumps_fields fs ++ "\x7d"

/-- Comma-separated serialization of array elements. -/
def dumps_list : List JVal → String
  | [] => ""
  | [x] => json_dumps x
  | x :: y :: rest => json_dumps x ++ ", " ++ dumps_list (y :: rest)

/-- Comma-separated serialization of object fields. -/
def dumps_fields : List (String × JVal) → String
  | [] => ""
  | [p] => "\x22" ++ jsonEscapeString p.1 ++ "\x22: " ++ json_dumps p.2
  | p :: q :: rest =>
      "\x22" ++ jsonEscapeString p.1 ++ "\x22: " ++ json_dumps p.2 ++ ", " ++
        dumps_fields (q :: rest)

end

/-- Single-quote character used by Python `repr` of strings. -/
def pyQuote : String := (Char.ofNat 39).toString

mutual

/-- Python `str(v)` of a JSON-derived value (`str(None) = "None"`,
`str(\x7b"a": 1\x7d)` uses `repr` on the members). Internal escaping inside
`repr` of strings is elided; no claim depends on it. -/
def pyStr : JVal → String
  | .jnull => "None"
  | .jbool true => "True"
  | .jbool false => "False"
  | .jnum n => toString n
  | .jstr s => s
  | .jarr xs => "[" ++ pyReprList xs ++ "]"
  | .jobj fs => "\x7b" ++ pyReprFields fs ++ "\x7d"

/-- Python `repr(v)` of a JSON-derived value. -/
def pyRepr : JVal → String
  | .jnull => "None"
  | .jbool true => "True"
  | .jbool false => "False"
  | .jnum n => toString n
  | .jstr s => pyQuote ++ s ++ pyQuote
  | .jarr xs => "[" ++ pyReprList xs ++ "]"
  | .jobj fs => "\x7b" ++ pyReprFields fs ++ "\x7d"

/-- Comma-separated `repr` of list elements. -/
def pyReprList : List JVal → String
  | [] => ""
  | [x] => pyRepr x
  | x :: y :: rest => pyRepr x ++ ", " ++ pyReprList (y :: rest)

/-- Comma-separated `repr` of dict items. -/
def pyReprFields : List (String × JVal) → String
  | [] => ""
  | [p] => pyQuote ++ p.1 ++ pyQuote ++ ": " ++ pyRepr p.2
  | p :: q :: rest =>
      pyQuote ++ p.1 ++ pyQuote ++ ": " ++ pyRepr p.2 ++ ", " ++
        pyReprFields (q :: rest)

end

/-- Python `v.strip()` where `v` came from a JSON field expected to hold a
string: strips when it is a string, raises `AttributeError` otherwise. -/
def pyStripAttr (v : JVal) : Except PyErr String :=
  match v with
  | .jstr s => .ok (pyStrip s)
  | _ => .error (.attributeError "strip")

/-!
Embedding of `_parse_bedrock_response` (scripts/bedrock_utils.py, lines
373-418).  The function takes the raw response text together with the
outcome of `json.loads` on it (`none` models a parse exception).
-/

/-- Branch 1 of `_parse_bedrock_response`: the `"choices"` hypothesis
(lines 386-393).  Returns `ok (some v)` when the branch returns `v`,
`ok none` when control falls through, `error` when it raises (Python raises
`AttributeError` on `first.get` when the first choice is not a dict). -/
def parse_choices_step (parsed : JVal) : Except PyErr (Option JVal) :=
  match keyVal? parsed "choices" with
  | some (.jarr (first :: _)) =>
      match first with
      | .jobj _ =>
          let msg := pyOr (pyOr (getD first "message") (getD first "content")) (getD first "text")
          match msg with
          | .jobj _ =>
              .ok (some (pyOr (pyOr (getD msg "content") (getD msg "text")) (.jstr (pyStr msg))))
          | .jstr s => .ok (some (.jstr s))
          | _ => .ok none
      | _ => .error (.attributeError "get")
  | _ => .ok none

/-- Scan of the `"outputs"` content list for a `"text"` field (lines
400-405); `none` when the loop completes without returning.  The second
`if` of the loop body (a `"type"` key together with a truthy `"text"`
value) is kept even though the first `if` subsumes it. -/
def scan_content_for_text : List JVal → Option JVal
  | [] => none
  | c :: rest =>
      match c with
      | .jobj fs =>
          match lookupField fs "text" with
          | some v => some v
          | none =>
              if (lookupField fs "type").isSome && truthy ((lookupField fs "text").getD .jnull) then
                some ((lookupField fs "text").getD .jnull)
              else scan_content_for_text rest
      | _ => scan_content_for_text rest

/-- Branch 2 of `_parse_bedrock_response`: the `"outputs"` hypothesis
(lines 396-407).  A non-empty content list always returns (a found text
field, or the joined stringification of the whole list). -/
def parse_outputs_step (parsed : JVal) : Except PyErr (Option JVal) :=
  match keyVal? parsed "outputs" with
  | some (.jarr (out0 :: _)) =>
      match out0 with
      | .jobj _ =>
          match getD out0 "content" with
          | .jarr (c :: cs) =>
              match scan_content_for_text (c :: cs) with
              | some v => .ok (some v)
              | none => .ok (some (.jstr (joinWithSpace ((c :: cs).map pyStr))))
          | _ => .ok none
      | _ => .error (.attributeError "get")
  | _ => .ok none

/-- Branch 3 of `_parse_bedrock_response`: the first present key among
`"generated_text"`, `"output"`, `"text"` (lines 410-412). -/
def parse_top_field_step (parsed : JVal) : Option JVal :=
  match keyVal? parsed "generated_text" with
  | some v => some v
  | none =>
      match keyVal? parsed "output" with
      | some v => some v
      | none => keyVal? parsed "text"

/-- Embedding of `_parse_bedrock_response(resp_text)` (lines 373-418).
`loads` is the outcome of `json.loads(resp_text)`; `none` models the parse
exception, upon which the raw text is returned unchanged.  The Python
function can return non-string values (for example a content list), hence
the `JVal` result. -/
def parse_bedrock_response (resp_text : String) (loads : Option JVal) : Except PyErr JVal :=
  match loads with
  | none => .ok (.jstr resp_text)
  | some parsed =>
      match parsed with
      | .jobj _ =>
          match parse_choices_step parsed with
          | .error e => .error e
          | .ok (some v) => .ok v
          | .ok none =>
              match parse_outputs_step parsed with
              | .error e => .error e
              | .ok (some v) => .ok v
              | .ok none =>
                  match parse_top_field_step parsed with
                  | some v => .ok v
                  | none => .ok (.jstr (json_dumps parsed))
      | _ => .ok (.jstr (json_dumps parsed))

/-!
Embedding of `_extract_text_from_bedrock_response` (lines 97-143) and of the
identical inline parsing of `generate_response` (lines 472-513).  Both drafts
probe, in this order: `message -> content`, `outputText`, `choices`; they
differ only in the non-JSON case (stripped vs unchanged raw text) and in the
truncation bound of the final fallback.
-/

/-- The `message -> content[0] -> text` probe (lines 113-122 and 480-491).
A non-empty content list always returns: the stripped `"text"` field (an
`AttributeError` when that field is not a string), else `str(first).strip()`. -/
def extract_message_step (data : JVal) : Except PyErr (Option String) :=
  match getD data "message" with
  | .jobj mfs =>
      match pyOr ((lookupField mfs "content").getD .jnull) (.jarr []) with
      | .jarr (first :: _) =>
          match first with
          | .jobj ffs =>
              match lookupField ffs "text" with
              | some t =>
                  match pyStripAttr t with
                  | .ok s => .ok (some s)
                  | .error e => .error e
              | none => .ok (some (pyStrip (pyStr first)))
          | _ => .ok (some (pyStrip (pyStr first)))
      | _ => .ok none
  | _ => .ok none

/-- The `outputText` probe (lines 124-126 and 493-495). -/
def extract_outputText_step (data : JVal) : Option String :=
  match keyVal? data "outputText" with
  | some (.jstr s) => some (pyStrip s)
  | _ => none

/-- The `choices` probe (lines 128-140 and 497-510): `choice.get("message", \x7b\x7d)`
raises when the first choice is not a dict; then `message.content` or
`choice.content`, else a `"text"` field on the choice itself. -/
def extract_choices_step (data : JVal) : Except PyErr (Option String) :=
  match keyVal? data "choices" with
  | some (.jarr (choice :: _)) =>
      match pyGetD choice "message" (.jobj []) with
      | .error e => .error e
      | .ok msg =>
          match pyGet msg "content" with
          | .error e => .error e
          | .ok msgContent =>
              match pyOr (pyOr msgContent (getD choice "content")) (.jarr []) with
              | .jarr (first :: _) =>
                  match first with
                  | .jobj ffs =>
                      match lookupField ffs "text" with
                      | some t =>
                          match pyStripAttr t with
                          | .ok s => .ok (some s)
                          | .error e => .error e
                      | none => .ok (some (pyStrip (pyStr first)))
                  | _ => .ok (some (pyStrip (pyStr first)))
              | _ =>
                  match keyVal? choice "text" with
                  | some t =>
                      match pyStripAttr t with
                      | .ok s => .ok (some s)
                      | .error e => .error e
                  | none => .ok none
  | _ => .ok none

/-- Embedding of `_extract_text_from_bedrock_response(raw_response_body)`
(lines 97-143).  The body is modelled as the decoded string `raw_text`
(the bytes-decode step of lines 101-104 is the identity on valid UTF-8,
which covers every claim); `loads` is the outcome of `json.loads`. -/
def extract_text_from_bedrock_response (raw_text : String) (loads : Option JVal) : Except PyErr String :=
  match loads with
  | none => .ok (pyStrip raw_text)
  | some data =>
      match data with
      | .jobj _ =>
          match extract_message_step data with
          | .error e => .error e
          | .ok (some s) => .ok s
          | .ok none =>
              match extract_outputText_step data with
              | some s => .ok s
              | none =>
                  match extract_choices_step data with
                  | .error e => .error e
                  | .ok (some s) => .ok s
                  | .ok none => .ok (pyTake (json_dumps data) 20000)
      | _ => .ok (pyTake (json_dumps data) 20000)

/-- Embedding of the response parsing inlined in `generate_response`
(lines 466-513): identical probes, but a non-JSON body is returned
unchanged (line 477) and the fallback is truncated to 10000 characters. -/
def generate_response_parse (raw_text : String) (loads : Option JVal) : Except PyErr String :=
  match loads with
  | none => .ok raw_text
  | some data =>
      match data with
      | .jobj _ =>
          match extract_message_step data with
          | .error e => .error e
          | .ok (some s) => .ok s
          | .ok none =>
              match extract_outputText_step data with
              | some s => .ok s
              | none =>
                  match extract_choices_step data with
                  | .error e => .error e
                  | .ok (some s) => .ok s
                  | .ok none => .ok (pyTake (json_dumps data) 10000)
      | _ => .ok (pyTake (json_dumps data) 10000)

/-!
Embedding of `valid_prompt` (lines 146-234).  The Bedrock classification
call of lines 195-207 is external: it is modelled by an `invoke` oracle
mapping the model id and request payload to either the decoded response body
together with its `json.loads` outcome, or a raised exception.
-/

/-- Configuration constant `MODEL_ID_CLASSIFIER` (line 88). -/
def MODEL_ID_CLASSIFIER : String := "amazon.nova-pro-v1:0"

/-- Configuration constant `FILE_URL` (lines 91 and 432). -/
def FILE_URL : String := "/mnt/data/machine_files.pdf"

/-- Oracle type for `bedrock_runtime.invoke_model` followed by
`response["body"].read()`: model id and payload in, decoded body text plus
its `json.loads` outcome out, or a raised exception. -/
def InvokeOracle : Type := String → JVal → Except PyErr (String × Option JVal)

/-- Python `isinstance(c, (str,)) and c.isalpha() or ...`: the word-character
class of the regex `\b` boundary (ASCII letters, digits, underscore; the
classifier replies the scripts compare are ASCII). -/
def isWordChar (c : Char) : Bool :=
  c.isAlpha || c.isDigit || c == Char.ofNat 95

/-- Membership in the regex character class `[A-Ea-e]`. -/
def isClassLetter (c : Char) : Bool :=
  (65 ≤ c.toNat && c.toNat ≤ 69) || (97 ≤ c.toNat && c.toNat ≤ 101)

/-- Left-to-right scan implementing `re.search(r"\b([A-Ea-e])\b", s)`
(line 212): the first position holding a class letter with a non-word
character (or the string edge) on both sides. -/
def findLetterAEAux (prev : Option Char) : List Char → Option Char
  | [] => none
  | c :: rest =>
      if isClassLetter c
          && (match prev with | none => true | some p => !isWordChar p)
          && (match rest with | [] => true | n :: _ => !isWordChar n) then
        some c
      else findLetterAEAux (some c) rest

/-- First `[A-Ea-e]` letter of `s` delimited by word boundaries, as matched
by `re.search(r"\b([A-Ea-e])\b", s)`. -/
def findLetterAE (s : String) : Option Char :=
  findLetterAEAux none s.toList

/-- The keyword list of the heuristic fallback (lines 226-229).  Note that
`"kW"` is compared against a lowercased string, so it can never match. -/
def fallback_keywords : List String :=
  ["rated power", "rpm", "motor", "engine", "gearbox", "bearing", "hydraulic",
   "compressor", "xr-220", "lift capacity", "torque", "specification", "specs",
   "amp", "kW"]

/-- The keyword heuristic fallback of `valid_prompt` (lines 225-234). -/
def valid_prompt_heuristic (question : String) : Bool × String :=
  let lower := pyLower question
  if fallback_keywords.any (fun kw => containsSub kw lower) then
    (true, "OK (Category E - heuristic fallback)")
  else
    (false, "Not Category E (heuristic fallback)")

/-- The classifier request payload of lines 180-192 (system prompt defining
categories A-E, the user question, the file attachment, and inference
parameters; `temperature: 0.0` is modelled as the integer 0, the payload
content is opaque to every claim).  The long English system-prompt text is
carried as an opaque constant below. -/
def classifier_system_prompt : String :=
  "You are a strict classifier. There are five categories (A - E)." ++
  " Return ONLY the single uppercase letter (A, B, C, D, or E) and nothing else."

/-- Request payload built by `valid_prompt` (lines 180-192). -/
def classifier_payload (question : String) : JVal :=
  .jobj
    [("messages", .jarr
        [.jobj [("role", .jstr "system"),
                ("content", .jarr [.jobj [("type", .jstr "text"), ("text", .jstr classifier_system_prompt)]])],
         .jobj [("role", .jstr "user"),
                ("content", .jarr [.jobj [("type", .jstr "text"), ("text", .jstr question)]]),
                ("attachments", .jarr [.jobj [("type", .jstr "url"), ("url", .jstr FILE_URL)]])]]),
     ("inferenceConfig", .jobj [("maxTokens", .jnum 10), ("temperature", .jnum 0)])]

/-- Embedding of `valid_prompt(user_input)` (lines 146-234).  The `try`
block of lines 195-207 catches every exception of the call and of
`_extract_text_from_bedrock_response`, leaving `classifier_text = None`;
an empty classifier reply is falsy at line 210 and also falls back to the
keyword heuristic. -/
def valid_prompt (invoke : InvokeOracle) (user_input : String) : Bool × String :=
  if user_input == "" || pyStrip user_input == "" then
    (false, "Empty prompt.")
  else
    let question := pyStrip user_input
    let classifier_text : Option String :=
      match invoke MODEL_ID_CLASSIFIER (classifier_payload question) with
      | .error _ => none
      | .ok rp =>
          match extract_text_from_bedrock_response rp.1 rp.2 with
          | .ok t => some t
          | .error _ => none
    match classifier_text with
    | some t =>
        if t == "" then valid_prompt_heuristic question
        else
          match findLetterAE t with
          | some c =>
              if c.toUpper == 'E' then (true, "OK (Category E)")
              else (false, "Classified as Category " ++ (Char.toUpper c).toString)
          | none =>
              if containsSub "category e" (pyLower t) || containsSub "heavy machinery" (pyLower t) then
                (true, "OK (Category E - detected by text)")
              else
                (false, "Classified (model) as non-E: " ++ pyTake (pyStrip t) 200)
    | none => valid_prompt_heuristic question

/-!
Embedding of `generate_response` (lines 434-517).  The whole body sits in
one `try` (lines 457-513); any exception, of the call or of the inline
parsing, is caught at line 515 and rendered as an error string.  The
second component of the result counts the `invoke_model` calls made, so
that the one-attempt behaviour is part of the embedded semantics.
-/

/-- Request payload built by `generate_response` (lines 440-455). -/
def generate_payload (system_prompt user_prompt : String) (max_tokens : Int) : JVal :=
  .jobj
    [("messages", .jarr
        [.jobj [("role", .jstr "system"),
                ("content", .jarr [.jobj [("type", .jstr "text"), ("text", .jstr system_prompt)]])],
         .jobj [("role", .jstr "user"),
                ("content", .jarr [.jobj [("type", .jstr "text"), ("text", .jstr user_prompt)]]),
                ("attachments", .jarr [.jobj [("type", .jstr "url"), ("url", .jstr FILE_URL)]])]]),
     ("inferenceConfig", .jobj [("maxTokens", .jnum max_tokens)])]

/-- Embedding of `generate_response(system_prompt, user_prompt, model_id,
max_tokens)`.  Exactly one payload is built and exactly one invocation is
attempted (the source has a single `invoke_model` call site and no retry);
the `Nat` component records that call count. -/
def generate_response (invoke : InvokeOracle) (system_prompt user_prompt model_id : String)
    (max_tokens : Int) : String × Nat :=
  let payload := generate_payload system_prompt user_prompt max_tokens
  match invoke model_id payload with
  | .error e => ("[ERROR] model invocation failed: " ++ pyErrMsg e, 1)
  | .ok rp =>
      match generate_response_parse rp.1 rp.2 with
      | .ok s => (s, 1)
      | .error e => ("[ERROR] model invocation failed: " ++ pyErrMsg e, 1)

/-!
Embedding of the per-item parsing of `query_knowledge_base` (lines 313-361).
The `retrieve` call itself is external and re-raises on failure (lines
301-303); the claims concern the hit records built from the response items.
-/

/-- One parsed knowledge-base hit (the dict appended at lines 355-361). -/
structure KBHit where
  title : JVal
  content : JVal
  source : JVal
  score : JVal
  raw : JVal

/-- Field probing of the loop body (lines 317-353): title, content, source
and score from their candidate locations, then the fallback defaults
(stringified item for content, `source or "unknown"` for title). -/
def kb_probe (item : JVal) : JVal × JVal × JVal × JVal :=
  let probed :=
    match item with
    | .jobj _ =>
        let doc := pyOr (pyOr (pyOr (getD item "document") (getD item "sourceDocument")) (getD item "source")) item
        let fromDoc :=
          match doc with
          | .jobj _ =>
              let content := pyOr (pyOr (getD doc "content") (getD doc "text")) (getD doc "body")
              let title := getD doc "title"
              let metadata := pyOr (pyOr (getD doc "metadata") (getD item "metadata")) (.jobj [])
              let source :=
                match metadata with
                | .jobj _ =>
                    pyOr (pyOr (pyOr (getD metadata "s3_uri") (getD metadata "s3Path")) (getD metadata "source")) (getD metadata "file")
                | _ => .jnull
              (content, title, source)
          | _ => (JVal.jnull, JVal.jnull, JVal.jnull)
        let content := pyOr fromDoc.1 (pyOr (pyOr (getD item "content") (getD item "text")) (getD item "excerpt"))
        let title := pyOr fromDoc.2.1 (pyOr (getD item "title") (getD item "documentTitle"))
        let score := pyOr (pyOr (getD item "score") (getD item "relevanceScore")) (getD item "similarityScore")
        (content, title, fromDoc.2.2, score)
    | _ => (JVal.jnull, JVal.jnull, JVal.jnull, JVal.jnull)
  let content := if truthy probed.1 then probed.1 else .jstr (pyTake (json_dumps item) 4096)
  let title := if truthy probed.2.1 then probed.2.1 else pyOr probed.2.2.1 (.jstr "unknown")
  (title, content, probed.2.2.1, probed.2.2.2)

/-- One iteration of the result loop: the appended hit record. -/
def kb_parse_item (item : JVal) : KBHit :=
  let p := kb_probe item
  ⟨p.1, p.2.1, p.2.2.1, p.2.2.2, item⟩

/-- The whole result loop (lines 315-361): one appended record per item,
in order. -/
def kb_parse_items : List JVal → List KBHit
  | [] => []
  | item :: rest => kb_parse_item item :: kb_parse_items rest

/-!
Embedding of `scripts/upload_to_s3.py`.  `os.listdir` and `upload_file` are
external: the script is modelled as a function from the directory listing to
the list of upload actions it performs.
-/

/-- Bucket configured at line 4 of `upload_to_s3.py`. -/
def upload_bucket : String := "s3-bucket-bedrock-project-malli"

/-- Key prefix configured at line 5 of `upload_to_s3.py`. -/
def upload_prefix : String := "documents/"

/-- One `s3.upload_file(local_path, bucket_name, s3_key)` call. -/
structure UploadAction where
  local_path : String
  bucket : String
  key : String
deriving DecidableEq

/-- The upload loop of `upload_to_s3.py` (lines 11-17): one upload per
listed file whose name ends in `.pdf` or `.txt`, to key
`"documents/" ++ filename`, from `os.path.join("spec-sheets", filename)`. -/
def upload_run : List String → List UploadAction
  | [] => []
  | f :: rest =>
      if f.endsWith ".pdf" || f.endsWith ".txt" then
        ⟨"spec-sheets/" ++ f, upload_bucket, upload_prefix ++ f⟩ :: upload_run rest
      else
        upload_run rest

/-!
Shared concrete inputs used by the claim theorems below.
-/

/-- Oracle modelling a classifier call that answers with the bare letter `E`
(the body `"E"` is not valid JSON, so `json.loads` on it raises). -/
def classifier_answers_E : InvokeOracle := fun _ _ => .ok ("E", none)

/-- Oracle modelling an unavailable Bedrock endpoint: the call raises. -/
def classifier_unavailable : InvokeOracle := fun _ _ => .error (.external "connection error")

/-- Oracle modelling a model invocation that raises with message `boom`. -/
def failing_invoke : InvokeOracle := fun _ _ => .error (.external "boom")

/-- Parsed payload `\x7b"choices": ["hi"]\x7d`: a choices list whose first
element is a plain string. -/
def bad_choices_payload : JVal := .jobj [("choices", .jarr [.jstr "hi"])]

/-- Parsed payload `\x7b"message": \x7b"content": [\x7b"text": "A"\x7d]\x7d\x7d`:
only the nested message shape is present. -/
def message_only_payload : JVal :=
  .jobj [("message", .jobj [("content", .jarr [.jobj [("text", .jstr "A")]])])]

/-- Parsed payload whose choices entry carries an empty text and whose
outputs entry carries the non-empty text `X`. -/
def empty_choice_payload : JVal :=
  .jobj [("choices", .jarr [.jobj [("text", .jstr "")]]),
         ("outputs", .jarr [.jobj [("content", .jarr [.jobj [("text", .jstr "X")]])]])]

/-- Parsed payload satisfying the choices, outputs and top-level-text shapes
at once, with distinct texts `c1`, `o1`, `t1`. -/
def all_shapes_payload : JVal :=
  .jobj [("choices", .jarr [.jobj [("message", .jobj [("content", .jstr "c1")])]]),
         ("outputs", .jarr [.jobj [("content", .jarr [.jobj [("text", .jstr "o1")]])]]),
         ("text", .jstr "t1")]

/-- Parsed payload satisfying the outputs and top-level-text shapes. -/
def outputs_and_text_payload : JVal :=
  .jobj [("outputs", .jarr [.jobj [("content", .jarr [.jobj [("text", .jstr "o1")]])]]),
         ("text", .jstr "t1")]

/-- Parsed payload with only a top-level `"text"` field. -/
def text_only_payload : JVal := .jobj [("text", .jstr "t1")]

/-- Claim C1 (counterexample).  The claim says the Response Normalizer never
raises for any parsed payload; but on the payload `\x7b"choices": ["hi"]\x7d`
the source line `first.get("message")` calls `.get` on a string, raising
`AttributeError`, so `_parse_bedrock_response` raises. -/
theorem parse_response_raises_cex :
    parse_bedrock_response "x" (some bad_choices_payload) = .error (.attributeError "get") := rfl

/-- Claim C1 (amended).  `_parse_bedrock_response` never raises on raw
non-JSON input, returning the text unchanged, and on the unrecognized
payload `\x7b\x7d` it returns the non-empty fallback string `"\x7b\x7d"`;
the never-raises guarantee does not extend to every parsed payload shape
(see the counterexample). -/
theorem parse_response_total_fallbacks :
    (∀ s : String, parse_bedrock_response s none = .ok (.jstr s)) ∧
      parse_bedrock_response "\x7b\x7d" (some (.jobj [])) = .ok (.jstr "\x7b\x7d") ∧
      ("\x7b\x7d" : String) ≠ "" :=
  ⟨fun _ => rfl, rfl, by decide⟩

/-- Claim C2 (counterexample).  The claim says a failed generation is retried
once with an alternate payload shape and the returned string contains both
failure causes; but on a failing invocation `generate_response` makes
exactly one call (count 1, not 2) and returns a string embedding the single
cause. -/
theorem generate_response_single_attempt_cex :
    generate_response failing_invoke "s" "u" "m" 300 =
      ("[ERROR] model invocation failed: boom", 1) := rfl

/-- Claim C2 (amended).  `generate_response` makes exactly one model
invocation, with a single request payload shape and no retry; when that
attempt fails it returns, without raising, a single descriptive string
containing that one failure cause, so the caller always receives a string. -/
theorem generate_response_single_attempt (invoke : InvokeOracle)
    (system_prompt user_prompt model_id : String) (max_tokens : Int) :
    (generate_response invoke system_prompt user_prompt model_id max_tokens).2 = 1 ∧
      ∀ e : PyErr,
        invoke model_id (generate_payload system_prompt user_prompt max_tokens) = .error e →
          (generate_response invoke system_prompt user_prompt model_id max_tokens).1 =
            "[ERROR] model invocation failed: " ++ pyErrMsg e := by
  constructor
  · simp only [generate_response]
    cases invoke model_id (generate_payload system_prompt user_prompt max_tokens) with
    | error e => rfl
    | ok rp =>
        show (match generate_response_parse rp.1 rp.2 with
              | Except.ok s => (s, 1)
              | Except.error e => ("[ERROR] model invocation failed: " ++ pyErrMsg e, 1)).2 = 1
        cases generate_response_parse rp.1 rp.2 <;> rfl
  · intro e he
    simp [generate_response, he]

/-- Claim C2 (witness for the amended theorem). -/
theorem generate_response_single_attempt_witness :
    (generate_response failing_invoke "sys" "user" "model" 300).2 = 1 ∧
      (generate_response failing_invoke "sys" "user" "model" 300).1 =
        "[ERROR] model invocation failed: boom" :=
  ⟨(generate_response_single_attempt failing_invoke "sys" "user" "model" 300).1,
    (generate_response_single_attempt failing_invoke "sys" "user" "model" 300).2
      (.external "boom") rfl⟩

/-- Claim C3 (counterexample).  The claim says `valid_prompt` is a pure
function of its input string alone making no external call; but on the same
input `"hello"` the verdict flips with the external classifier outcome:
admitted when the classifier answers `E`, rejected when the call fails. -/
theorem valid_prompt_external_dependence_cex :
    valid_prompt classifier_answers_E "hello" = (true, "OK (Category E)") ∧
      valid_prompt classifier_unavailable "hello" = (false, "Not Category E (heuristic fallback)") ∧
      valid_prompt classifier_answers_E "hello" ≠ valid_prompt classifier_unavailable "hello" :=
  ⟨by decide, by decide, by decide⟩

/-- Claim C3 (amended).  `valid_prompt` performs one external classification
call; no exception escapes for any input and any classifier outcome — a
raised call or a raised response extraction is absorbed and treated exactly
like an unavailable classifier — and the verdict is a deterministic function
of the input together with the classifier outcome, not of the input alone. -/
theorem valid_prompt_absorbs_failures (input raw : String) (loads : Option JVal) (e : PyErr)
    (h : extract_text_from_bedrock_response raw loads = .error e) :
    valid_prompt (fun _ _ => .ok (raw, loads)) input =
      valid_prompt (fun _ _ => .error (.external "err")) input := by
  simp [valid_prompt, h]

/-- Claim C3 (witness for the amended theorem). -/
theorem valid_prompt_absorbs_failures_witness :
    valid_prompt (fun _ _ => .ok ("x", some bad_choices_payload)) "hello" =
      valid_prompt (fun _ _ => .error (.external "err")) "hello" :=
  valid_prompt_absorbs_failures "hello" "x" (some bad_choices_payload)
    (.attributeError "get") rfl

/-- Claim C4 (counterexample).  The claim says empty and whitespace-only
input is admitted; but lines 158-159 return `(False, "Empty prompt.")` for
both. -/
theorem valid_prompt_empty_rejected_cex :
    valid_prompt classifier_answers_E "" = (false, "Empty prompt.") ∧
      valid_prompt classifier_answers_E "   " = (false, "Empty prompt.") :=
  ⟨rfl, rfl⟩

/-- Claim C4 (amended).  For empty or whitespace-only input, `valid_prompt`
returns admitted = false with reason `"Empty prompt."`, before any external
call is made (the verdict is the same for every oracle). -/
theorem valid_prompt_empty_rejected (invoke : InvokeOracle) (s : String)
    (h : pyStrip s = "") : valid_prompt invoke s = (false, "Empty prompt.") := by
  have h3 : (pyStrip s == "") = true := by simp [h]
  simp [valid_prompt, h3]

/-- Claim C4 (witness for the amended theorem). -/
theorem valid_prompt_empty_rejected_witness :
    valid_prompt classifier_unavailable " " = (false, "Empty prompt.") :=
  valid_prompt_empty_rejected classifier_unavailable " " (by decide)

/-- Claim C5 (counterexample).  The claim says every input containing an
email-like substring is rejected; but `valid_prompt` has no
personal-contact-information check: the input below contains the email-like
substring `bob@example.com` and is admitted when the classifier answers `E`. -/
theorem valid_prompt_email_admitted_cex :
    containsSub "bob@example.com" "contact me at bob@example.com" = true ∧
      valid_prompt classifier_answers_E "contact me at bob@example.com" =
        (true, "OK (Category E)") :=
  ⟨by decide, rfl⟩

/-- Claim C5 (amended).  `valid_prompt` applies no email or phone pattern
filter: whenever the external classifier answers with the bare letter `E`,
every input with non-empty stripped content is admitted — inputs containing
email-like or phone-like substrings included. -/
theorem valid_prompt_classifier_E_admits (input : String) (h : pyStrip input ≠ "") :
    valid_prompt classifier_answers_E input = (true, "OK (Category E)") := by
  have h1 : input ≠ "" := fun he => h (by rw [he]; decide)
  have h2 : (input == "") = false := by simp [h1]
  have h3 : (pyStrip input == "") = false := by simp [h]
  unfold valid_prompt
  rw [h2, h3]
  rfl

/-- Claim C5 (witness for the amended theorem). -/
theorem valid_prompt_classifier_E_admits_witness :
    pyStrip "my email is bob@example.com, call 555-0147" ≠ "" ∧
      valid_prompt classifier_answers_E "my email is bob@example.com, call 555-0147" =
        (true, "OK (Category E)") :=
  ⟨by decide, valid_prompt_classifier_E_admits "my email is bob@example.com, call 555-0147" (by decide)⟩

/-- Claim C6.  On a plain string that is not valid JSON (`json.loads`
raises, modelled by the `none` argument), `_parse_bedrock_response` returns
that string unchanged. -/
theorem parse_response_identity_on_non_json (s : String) :
    parse_bedrock_response s none = .ok (.jstr s) := rfl

/-- Claim C7.  On `\x7b"choices": [\x7b"message": \x7b"content": "ans"\x7d\x7d]\x7d`
the Response Normalizer `_parse_bedrock_response` returns `"ans"`, and on
`\x7b"outputs": [\x7b"content": [\x7b"text": "ans2"\x7d]\x7d]\x7d` it returns `"ans2"`. -/
theorem parse_response_known_shapes :
    parse_bedrock_response
        "\x7b\x22choices\x22: [\x7b\x22message\x22: \x7b\x22content\x22: \x22ans\x22\x7d\x7d]\x7d"
        (some (.jobj [("choices", .jarr [.jobj [("message", .jobj [("content", .jstr "ans")])]])])) =
      .ok (.jstr "ans") ∧
    parse_bedrock_response
        "\x7b\x22outputs\x22: [\x7b\x22content\x22: [\x7b\x22text\x22: \x22ans2\x22\x7d]\x7d]\x7d"
        (some (.jobj [("outputs", .jarr [.jobj [("content", .jarr [.jobj [("text", .jstr "ans2")]])]])])) =
      .ok (.jstr "ans2") :=
  ⟨rfl, rfl⟩

set_option maxRecDepth 16384 in
/-- Claim C8 (counterexample).  The claim lists a fourth
`message -> content -> text` hypothesis and says the earliest hypothesis
yielding a non-empty text wins; but `_parse_bedrock_response` has no message
hypothesis at all (a message-only payload gets the pretty-printed fallback,
not `"A"`), and a choices entry yielding the empty string wins over an
outputs entry holding the non-empty `"X"`. -/
theorem parse_response_order_cex :
    (parse_bedrock_response "r" (some message_only_payload) ≠ .ok (.jstr "A")) ∧
      parse_bedrock_response "r2" (some empty_choice_payload) = .ok (.jstr "") ∧
      parse_bedrock_response "r2" (some empty_choice_payload) ≠ .ok (.jstr "X") := by
  refine ⟨?_, rfl, ?_⟩
  · intro h
    have h1 : (Except.ok (JVal.jstr (json_dumps message_only_payload)) : Except PyErr JVal) =
        .ok (.jstr "A") := h
    injection h1 with h1
    injection h1 with h1
    exact absurd h1 (by decide)
  · intro h
    have h1 : (Except.ok (JVal.jstr "") : Except PyErr JVal) = .ok (.jstr "X") := h
    injection h1 with h1
    injection h1 with h1
    exact absurd h1 (by decide)

/-- Claim C8 (amended).  `_parse_bedrock_response` evaluates its shape
hypotheses in the fixed order (1) choices list, (2) outputs list, (3) direct
top-level field among `generated_text` / `output` / `text`; there is no
fourth message hypothesis (such payloads fall to the pretty-printed
fallback), and the earliest hypothesis that yields a value determines the
result even when that value is the empty string. -/
theorem parse_response_order_amended :
    parse_bedrock_response "r" (some all_shapes_payload) = .ok (.jstr "c1") ∧
      parse_bedrock_response "r" (some outputs_and_text_payload) = .ok (.jstr "o1") ∧
      parse_bedrock_response "r" (some text_only_payload) = .ok (.jstr "t1") ∧
      parse_bedrock_response "r" (some message_only_payload) =
        .ok (.jstr (json_dumps message_only_payload)) ∧
      parse_bedrock_response "r2" (some empty_choice_payload) = .ok (.jstr "") :=
  ⟨rfl, rfl, rfl, rfl, rfl⟩

/-- Claim C9 (counterexample).  The claim says every absent field defaults
to `"unknown"`; but on the empty item only the title defaults to
`"unknown"`: the source (and score) stay `None`. -/
theorem kb_defaults_cex :
    (kb_parse_item (.jobj [])).source = .jnull ∧
      (kb_parse_item (.jobj [])).source ≠ .jstr "unknown" ∧
      (kb_parse_item (.jobj [])).score = .jnull := by
  refine ⟨rfl, ?_, rfl⟩
  intro h
  have h1 : (JVal.jnull : JVal) = .jstr "unknown" := h
  exact JVal.noConfusion h1

/-- Claim C9 (amended).  `query_knowledge_base` builds exactly one hit
record per response item, in order, each carrying title, content, source,
score and the raw item, probing several candidate locations per field;
when everything is absent the title defaults to `"unknown"` and the content
to a stringified item, while source and score default to `None`, not
`"unknown"`. -/
theorem kb_hits_shape (items : List JVal) :
    (kb_parse_items items).length = items.length ∧
      (∀ item : JVal, (kb_parse_item item).raw = item) ∧
      kb_parse_item (.jobj []) =
        ⟨.jstr "unknown", .jstr "\x7b\x7d", .jnull, .jnull, .jobj []⟩ := by
  refine ⟨?_, fun _ => rfl, rfl⟩
  induction items with
  | nil => rfl
  | cons i rest ih => simp [kb_parse_items, ih]

/-- Claim C10.  The upload script uploads exactly the listed files whose
names end in `.pdf` or `.txt`, each from `spec-sheets/<filename>` to key
`documents/<filename>` in the configured bucket, and nothing else. -/
theorem upload_filter_characterization (files : List String) (a : UploadAction) :
    a ∈ upload_run files ↔
      ∃ name, name ∈ files ∧ (name.endsWith ".pdf" || name.endsWith ".txt") = true ∧
        a = ⟨"spec-sheets/" ++ name, upload_bucket, upload_prefix ++ name⟩ := by
  induction files with
  | nil => simp [upload_run]
  | cons f rest ih =>
      simp only [upload_run]
      by_cases hf : (f.endsWith ".pdf" || f.endsWith ".txt") = true
      · rw [if_pos hf]
        constructor
        · intro hmem
          rcases List.mem_cons.mp hmem with rfl | hm
          · exact ⟨f, List.mem_cons_self f rest, hf, rfl⟩
          · rcases ih.mp hm with ⟨name, hn, hs, rfl⟩
            exact ⟨name, List.mem_cons_of_mem f hn, hs, rfl⟩
        · rintro ⟨name, hm, hs, rfl⟩
          rcases List.mem_cons.mp hm with rfl | hm
          · exact List.mem_cons_self _ _
          · exact List.mem_cons_of_mem _ (ih.mpr ⟨name, hm, hs, rfl⟩)
      · rw [if_neg hf]
        constructor
        · intro hmem
          rcases ih.mp hmem with ⟨name, hn, hs, rfl⟩
          exact ⟨name, List.mem_cons_of_mem f hn, hs, rfl⟩
        · rintro ⟨name, hm, hs, rfl⟩
          rcases List.mem_cons.mp hm with rfl | hm
          · exact absurd hs hf
          · exact ih.mpr ⟨name, hm, hs, rfl⟩
